import Mathlib

/-!
Shallow embedding of the Sparrow trip-planner data and API layer
(src/sparrow/core/models.py, src/sparrow/core/serializers.py), together
with theorems about its validation and derived-state rules.

Dates are modelled as natural-number day counts; the current day is an
explicit argument wherever the source calls date.today().  Database
tables are lists of rows; Django query-set lookups become list searches
returning Except values, since Model.objects.get raises when it finds no
row (or more than one), and callers in the source either swallow or
propagate those exceptions.  Framework externals (the password hasher,
the password-strength policy, session authentication) enter as function
parameters, universally quantified in the theorems.
-/

namespace Sparrow

/-! ## Data model (models.py) -/

/-- django.contrib.auth.models.User: account row with a hashed password. -/
structure UserRow where
  id : Nat
  username : String
  passwordHash : String
  firstName : String
  lastName : String
  email : String
  deriving Repr, DecidableEq

/-- Member (models.py): one-to-one extension of User; baseUser is the primary key. -/
structure MemberRow where
  baseUser : Nat
  profilePhoto : String
  birthDate : Option Nat
  deriving Repr, DecidableEq

/-- Group (models.py). -/
structure GroupRow where
  id : Nat
  name : String
  description : String
  deriving Repr, DecidableEq

/-- BelongsTo (models.py): associative table between Member and Group,
with Meta.unique_together = (member, group). -/
structure BelongsToRow where
  member : Nat
  group : Nat
  isAdmin : Bool
  nickname : Option String
  deriving Repr, DecidableEq

/-- Status (models.py): a labelled trip state such as "Ongoing" or "Completed". -/
structure StatusRow where
  id : Nat
  status : String
  deriving Repr, DecidableEq

/-- Notebook (models.py): per-member journal entry for a route.
dateStarted is declared auto_now_add (stamped on insert, and writable on
later saves because the auto stamp fires only when a row is added);
dateCompleted is nullable with no default. -/
structure NotebookRow where
  route : Nat
  user : Nat
  status : String
  title : String
  note : String
  dateStarted : Nat
  dateCompleted : Option Nat
  deriving Repr, DecidableEq

/-- The persistent store: one list per table needed by the claims. -/
structure DB where
  users : List UserRow
  members : List MemberRow
  groups : List GroupRow
  belongsTo : List BelongsToRow
  deriving Repr, DecidableEq

/-- Errors surfaced by the embedded operations.  ormDoesNotExist and
ormMultipleReturned are the exceptions Django raises out of
Model.objects.get; validationError stands for rest_framework
serializers.ValidationError (carrying the offending field or message
key); keyError is the exception raised by indexing a dict on a missing
key, as validated_data["status"] does when the payload omitted status. -/
inductive ApiErr where
  | ormDoesNotExist
  | ormMultipleReturned
  | validationError (key : String)
  | keyError (key : String)
  deriving Repr, DecidableEq

/-- Member.objects.get(baseUser=u): returns the unique member row whose
baseUser matches, raising DoesNotExist when there is none (including when
the lookup value is None or otherwise unresolvable) and
MultipleObjectsReturned when there are several. -/
def memberGet (db : DB) (baseUser : Option Nat) : Except ApiErr MemberRow :=
  match baseUser with
  | none => .error .ormDoesNotExist
  | some u =>
    match db.members.filter (fun m => m.baseUser = u) with
    | [m] => .ok m
    | [] => .error .ormDoesNotExist
    | _ => .error .ormMultipleReturned

/-! ## WriteRatingFlagSerializer (serializers.py lines 433-448) -/

/-- The write payload of WriteRatingFlagSerializer: fields
[user, rating, comment, route, attraction]; route and attraction are
nullable references. -/
structure RatingWriteData where
  user : Nat
  rating : Nat
  comment : String
  route : Option Nat
  attraction : Option Nat
  deriving Repr, DecidableEq

/-- WriteRatingFlagSerializer.validate: rejects when both route and
attraction are present, rejects when neither is, and otherwise returns
the data unchanged. -/
def ratingFlagValidate (data : RatingWriteData) : Except ApiErr RatingWriteData :=
  let route := data.route
  let attraction := data.attraction
  if route.isSome && attraction.isSome then
    .error (.validationError "Only one of route or attraction can be specified.")
  else if route.isNone && attraction.isNone then
    .error (.validationError "Either route or attraction must be specified.")
  else
    .ok data

/-! ## WriteRouteSerializer (serializers.py lines 309-365) -/

/-- The ownership slice of the validated data seen by WriteRouteSerializer:
the nullable user (account) reference and the nullable group reference. -/
structure RouteWriteData where
  user : Option Nat
  group : Option Nat
  deriving Repr, DecidableEq

/-- The member reference resolved by WriteRouteSerializer.validate (and by
its create and update paths): the result of the Member.objects.get lookup
wrapped in a try/except block that swallows every exception, so user is
None whenever the lookup raises. -/
def resolveOwnerMember (db : DB) (user : Option Nat) : Option MemberRow :=
  match memberGet db user with
  | .ok m => some m
  | .error _ => none

/-- WriteRouteSerializer.validate: reads group with data.get, resolves the
supplied user reference through the swallowed Member.objects.get lookup,
then rejects when the resolved user and the group are both non-null or
both null. -/
def routeValidate (db : DB) (data : RouteWriteData) : Except ApiErr RouteWriteData :=
  let group : Option Nat := data.group
  let user : Option MemberRow := resolveOwnerMember db data.user
  if (user.isSome && group.isSome) || (user.isNone && group.isNone) then
    .error (.validationError "Only one of user and group can be specified")
  else
    .ok data

/-! ## WriteNotebookSerializer (serializers.py lines 495-551) -/

/-- Meta.fields of WriteNotebookSerializer: the accepted write fields.
The owning member ("user") is not among them. -/
def writeNotebookFields : List String := ["route", "title", "note", "status"]

/-- The write payload of WriteNotebookSerializer.  status is Option
because the model column declares default=1, which makes the serializer
treat the field as optional, so a payload may omit it entirely; the
other fields are required. -/
structure NotebookWriteData where
  route : Nat
  title : String
  note : String
  status : Option StatusRow
  deriving Repr, DecidableEq

/-- WriteNotebookSerializer.create: request is the authenticated caller
(None when no request is in the serializer context).  The caller is
resolved to a member (an unresolvable caller raises out of the
un-wrapped Member.objects.get), the entry is stamped with
dateStarted = today, validated_data["status"] is indexed (raising
keyError when the payload omitted status), and dateCompleted becomes
today exactly when the chosen status is "Completed", otherwise it keeps
the model default null. -/
def notebookCreate (db : DB) (today : Nat) (request : Option Nat)
    (validated : NotebookWriteData) : Except ApiErr NotebookRow :=
  match request with
  | some requestUser =>
    match memberGet db (some requestUser) with
    | .error e => .error e
    | .ok member =>
      match validated.status with
      | none => .error (.keyError "status")
      | some st =>
        .ok { route := validated.route
              user := member.baseUser
              status := st.status
              title := validated.title
              note := validated.note
              dateStarted := today
              dateCompleted := if st.status = "Completed" then some today else none }
  | none => .error (.validationError "request")

/-- WriteNotebookSerializer.update: the caller is resolved to a member
exactly as in create, validated_data["status"] is indexed (raising
keyError when the payload omitted status), and the date fields are
derived from the transition: the requested status "Completed" stamps
dateCompleted = today; otherwise leaving a previous "Completed" clears
dateCompleted and resets dateStarted to today; any other transition
touches no date field.  The remaining writable fields are then applied
to the stored row. -/
def notebookUpdate (db : DB) (today : Nat) (request : Option Nat)
    (inst : NotebookRow) (validated : NotebookWriteData) : Except ApiErr NotebookRow :=
  match request with
  | some requestUser =>
    match memberGet db (some requestUser) with
    | .error e => .error e
    | .ok member =>
      let oldStatus := inst.status
      match validated.status with
      | none => .error (.keyError "status")
      | some st =>
        if st.status = "Completed" then
          .ok { inst with route := validated.route, user := member.baseUser,
                          status := st.status, title := validated.title,
                          note := validated.note, dateCompleted := some today }
        else if oldStatus = "Completed" then
          .ok { inst with route := validated.route, user := member.baseUser,
                          status := st.status, title := validated.title,
                          note := validated.note, dateCompleted := none,
                          dateStarted := today }
        else
          .ok { inst with route := validated.route, user := member.baseUser,
                          status := st.status, title := validated.title,
                          note := validated.note }
  | none => .error (.validationError "request")

/-! ## RegisterUserSerializer and RegisterMemberSerializer
(serializers.py lines 86-118 and 173-208) -/

/-- The write payload of RegisterUserSerializer: fields [username,
password, passwordCheck, first_name, last_name, email]; first and last
name fall back to the empty string when absent (validated_data.pop with
default), and email may be absent because the model declares it blank. -/
structure RegisterUserData where
  username : String
  password : String
  passwordCheck : String
  firstName : Option String
  lastName : Option String
  email : Option String
  deriving Repr, DecidableEq

/-- RegisterUserSerializer.save, with the password hasher (set_password)
as the parameter hashPw.  The database is threaded explicitly; an error
result carries the database as it stood when the exception was raised,
so the state returned on failure exhibits exactly which rows had been
persisted by then.  Order, as in the source: password match check, then
the email presence check, then the account row is built and saved. -/
def registerUserSave (hashPw : String → String) (validated : RegisterUserData)
    (db : DB) : Except (ApiErr × DB) (DB × UserRow) :=
  if validated.password ≠ validated.passwordCheck then
    .error (.validationError "password", db)
  else if validated.email = none ∨ validated.email = some "" then
    .error (.validationError "email", db)
  else
    let user : UserRow :=
      { id := db.users.length + 1
        username := validated.username
        passwordHash := hashPw validated.password
        firstName := validated.firstName.getD ""
        lastName := validated.lastName.getD ""
        email := validated.email.getD "" }
    .ok ({ db with users := db.users ++ [user] }, user)

/-- The write payload of RegisterMemberSerializer: a nested
RegisterUserSerializer payload plus the optional profile photo (model
default when absent) and the nullable birth date. -/
structure RegisterMemberData where
  baseUser : RegisterUserData
  profilePhoto : Option String
  birthDate : Option Nat
  deriving Repr, DecidableEq

/-- RegisterMemberSerializer.save: first the nested account payload is
validated and saved (any exception it raises propagates, aborting the
whole registration); only after that write has succeeded is the member
row built, pointing at the fresh account, and saved. -/
def registerMemberSave (hashPw : String → String) (validated : RegisterMemberData)
    (db : DB) : Except (ApiErr × DB) (DB × MemberRow) :=
  match registerUserSave hashPw validated.baseUser db with
  | .error e => .error e
  | .ok (db1, baseUser) =>
    let member : MemberRow :=
      { baseUser := baseUser.id
        profilePhoto := validated.profilePhoto.getD "default-profile-photo.jpeg"
        birthDate := validated.birthDate }
    .ok ({ db1 with members := db1.members ++ [member] }, member)

/-! ## ChangePasswordSerializer (serializers.py lines 146-170) -/

/-- ChangePasswordSerializer.update, with the framework externals as
parameters: checkPw models django check_password (does the supplied
plaintext match the stored hash), validatePw models validate_password
(false means the strength policy raised), hashPw models the hasher
behind set_password.  The supplied current password must match the
stored hash, then the new password must satisfy the policy, and only
then is the new hash stored. -/
def changePasswordUpdate (checkPw : String → String → Bool)
    (validatePw : String → Bool) (hashPw : String → String)
    (inst : UserRow) (password newPassword : String) : Except ApiErr UserRow :=
  if !(checkPw password inst.passwordHash) then
    .error (.validationError "password")
  else if !(validatePw newPassword) then
    .error (.validationError "newPassword")
  else
    .ok { inst with passwordHash := hashPw newPassword }

/-! ## WriteBelongsToSerializer (serializers.py lines 284-287) -/

/-- WriteBelongsToSerializer create: a plain ModelSerializer over
BelongsTo, so the Meta.unique_together = (member, group) declaration
makes the framework reject, at validation time, any row whose
(member, group) pair already exists, and otherwise the row is saved. -/
def belongsToCreate (db : DB) (row : BelongsToRow) : Except ApiErr DB :=
  if db.belongsTo.any (fun r => r.member = row.member && r.group = row.group) then
    .error (.validationError "unique")
  else
    .ok { db with belongsTo := db.belongsTo ++ [row] }

/-- At most one membership row per (member, group) pair. -/
def membershipUnique (rows : List BelongsToRow) : Prop :=
  rows.Pairwise (fun a b => ¬(a.member = b.member ∧ a.group = b.group))

/-! ## Concrete fixtures used by the witnesses -/

/-- A database holding an account (id 7) that has no member row, and a
group (id 3): the configuration under which the member lookup inside
WriteRouteSerializer.validate fails and is silently swallowed. -/
def dbOrphanAccount : DB :=
  { users := [{ id := 7, username := "orphan", passwordHash := "h",
                firstName := "", lastName := "", email := "o@x.com" }]
    members := []
    groups := [{ id := 3, name := "g", description := "d" }]
    belongsTo := [] }

/-- A database with two accounts, each with its member row. -/
def dbTwoMembers : DB :=
  { users := [{ id := 1, username := "alice", passwordHash := "ha",
                firstName := "", lastName := "", email := "a@x.com" },
              { id := 2, username := "bob", passwordHash := "hb",
                firstName := "", lastName := "", email := "b@x.com" }]
    members := [{ baseUser := 1, profilePhoto := "p1", birthDate := none },
                { baseUser := 2, profilePhoto := "p2", birthDate := none }]
    groups := []
    belongsTo := [] }

/-- The "Ongoing" status row. -/
def statusOngoing : StatusRow := { id := 1, status := "Ongoing" }

/-- The "Completed" status row. -/
def statusCompleted : StatusRow := { id := 2, status := "Completed" }

/-- A stored notebook entry currently Completed, started on day 5. -/
def notebookCompletedEntry : NotebookRow :=
  { route := 4, user := 1, status := "Completed", title := "t", note := "n",
    dateStarted := 5, dateCompleted := some 9 }

/-- A stored notebook entry currently Ongoing, started on day 5. -/
def notebookOngoingEntry : NotebookRow :=
  { route := 4, user := 1, status := "Ongoing", title := "t", note := "n",
    dateStarted := 5, dateCompleted := none }

/-- An example password hasher standing in for the framework hasher. -/
def exampleHashPw (p : String) : String := String.append "hash:" p

/-- An example credential check standing in for django check_password. -/
def exampleCheckPw (p : String) (stored : String) : Bool :=
  stored = String.append "hash:" p

/-- An example strength policy standing in for validate_password. -/
def exampleValidatePw (p : String) : Bool := 8 ≤ p.length

/-- An example stored account row for the change-password witness. -/
def exampleUser : UserRow :=
  { id := 1, username := "alice", passwordHash := "hash:oldsecret",
    firstName := "", lastName := "", email := "a@x.com" }

/-- A membership table with a single row for member 1 in group 2. -/
def dbOneMembership : DB :=
  { users := [], members := [], groups := []
    belongsTo := [{ member := 1, group := 2, isAdmin := true, nickname := none }] }

/-- The member row of account 1 in dbTwoMembers. -/
def memberAlice : MemberRow := { baseUser := 1, profilePhoto := "p1", birthDate := none }

/-- The member row of account 2 in dbTwoMembers. -/
def memberBob : MemberRow := { baseUser := 2, profilePhoto := "p2", birthDate := none }

/-- A notebook write payload requesting status "Ongoing". -/
def notebookDataOngoing : NotebookWriteData :=
  { route := 4, title := "t", note := "n", status := some statusOngoing }

/-- A notebook write payload requesting status "Completed". -/
def notebookDataCompleted : NotebookWriteData :=
  { route := 4, title := "t", note := "n", status := some statusCompleted }

/-- A notebook write payload omitting the status field. -/
def notebookDataNoStatus : NotebookWriteData :=
  { route := 4, title := "t", note := "n", status := none }

/-- An empty database. -/
def dbEmpty : DB := { users := [], members := [], groups := [], belongsTo := [] }

/-- A registration payload whose password and passwordCheck differ. -/
def registerDataMismatch : RegisterMemberData :=
  { baseUser := { username := "alice", password := "secret-one", passwordCheck := "secret-two",
                  firstName := none, lastName := none, email := some "a@x.com" }
    profilePhoto := none
    birthDate := none }

end Sparrow

namespace Sparrow

/-! ## Theorems -/

/-- C7: for every Rating write payload, validation accepts if and only if
exactly one of the route and attraction targets is present; both present
is rejected and neither present is rejected. -/
theorem ratingFlagValidate_exactly_one (data : RatingWriteData) :
    (ratingFlagValidate data).isOk = true ↔
      (data.route.isSome ≠ data.attraction.isSome) := by
  unfold ratingFlagValidate
  cases hr : data.route <;> cases ha : data.attraction <;>
    simp [Option.isSome, Option.isNone, Except.isOk, Except.toBool]

/-- C1 counterexample: a Route write payload supplying BOTH the owning
user and the owning group is nonetheless accepted by
WriteRouteSerializer.validate when the member lookup for the supplied
user fails (the exception is swallowed and user silently becomes null),
contradicting the claim that every both-present payload is rejected. -/
theorem routeValidate_accepts_both_when_lookup_fails :
    (RouteWriteData.mk (some 7) (some 3)).user.isSome = true ∧
    (RouteWriteData.mk (some 7) (some 3)).group.isSome = true ∧
    routeValidate dbOrphanAccount (RouteWriteData.mk (some 7) (some 3)) =
      .ok (RouteWriteData.mk (some 7) (some 3)) := by
  refine ⟨rfl, rfl, ?_⟩
  rfl

/-- C1 amended: WriteRouteSerializer.validate accepts a payload if and
only if exactly one of the RESOLVED owning member and the supplied owning
group is non-null, where a supplied user reference whose member lookup
fails resolves (silently) to null; in particular a payload supplying both
is accepted whenever the member lookup fails, and a payload supplying
only a user is rejected whenever the lookup fails. -/
theorem routeValidate_exactly_one_resolved (db : DB) (data : RouteWriteData) :
    (routeValidate db data).isOk = true ↔
      ((resolveOwnerMember db data.user).isSome ≠ data.group.isSome) := by
  unfold routeValidate
  cases hm : resolveOwnerMember db data.user <;> cases hg : data.group <;>
    simp [hm, Option.isSome, Option.isNone, Except.isOk, Except.toBool]

/-- C2: a Notebook update by an authenticated caller that changes the
status from "Completed" to any non-Completed status yields an entry with
completion date null and start date today, whatever start date was
stored before. -/
theorem notebookUpdate_reopen_resets_dates (db : DB) (today u : Nat)
    (m : MemberRow) (inst : NotebookRow) (validated : NotebookWriteData)
    (st : StatusRow)
    (hm : memberGet db (some u) = Except.ok m)
    (hst : validated.status = some st)
    (hold : inst.status = "Completed")
    (hnew : st.status ≠ "Completed") :
    ∃ nb, notebookUpdate db today (some u) inst validated = Except.ok nb ∧
      nb.dateCompleted = none ∧ nb.dateStarted = today := by
  refine ⟨{ inst with
            route := validated.route, user := m.baseUser,
            status := st.status, title := validated.title, note := validated.note,
            dateCompleted := none, dateStarted := today }, ?_, rfl, rfl⟩
  simp [notebookUpdate, hm, hst, hold, hnew]

/-- C2 witness: reopening the stored Completed entry (started on day 5)
on day 10 clears the completion date and restarts the entry on day 10. -/
theorem notebookUpdate_reopen_resets_dates_witness :
    ∃ nb, notebookUpdate dbTwoMembers 10 (some 1) notebookCompletedEntry
        notebookDataOngoing = Except.ok nb ∧
      nb.dateCompleted = none ∧ nb.dateStarted = 10 :=
  notebookUpdate_reopen_resets_dates dbTwoMembers 10 1 memberAlice
    notebookCompletedEntry notebookDataOngoing statusOngoing rfl rfl rfl
    (by decide)

/-- C5: a Notebook update by an authenticated caller whose requested
status is "Completed" (from any prior status) stamps completion date =
today and leaves the prior start date untouched. -/
theorem notebookUpdate_complete_stamps_completion (db : DB) (today u : Nat)
    (m : MemberRow) (inst : NotebookRow) (validated : NotebookWriteData)
    (st : StatusRow)
    (hm : memberGet db (some u) = Except.ok m)
    (hst : validated.status = some st)
    (hnew : st.status = "Completed") :
    ∃ nb, notebookUpdate db today (some u) inst validated = Except.ok nb ∧
      nb.dateCompleted = some today ∧ nb.dateStarted = inst.dateStarted := by
  refine ⟨{ inst with
            route := validated.route, user := m.baseUser,
            status := st.status, title := validated.title, note := validated.note,
            dateCompleted := some today }, ?_, rfl, rfl⟩
  simp [notebookUpdate, hm, hst, hnew]

/-- C5 witness: completing the stored Ongoing entry (started on day 5)
on day 10 stamps completion date 10 and keeps start date 5. -/
theorem notebookUpdate_complete_stamps_completion_witness :
    ∃ nb, notebookUpdate dbTwoMembers 10 (some 1) notebookOngoingEntry
        notebookDataCompleted = Except.ok nb ∧
      nb.dateCompleted = some 10 ∧
      nb.dateStarted = notebookOngoingEntry.dateStarted :=
  notebookUpdate_complete_stamps_completion dbTwoMembers 10 1 memberAlice
    notebookOngoingEntry notebookDataCompleted statusCompleted rfl rfl rfl

/-- C4: a Notebook create by an authenticated caller stamps start date =
today; the completion date is today exactly when the chosen initial
status is "Completed" and stays null for every other initial status. -/
theorem notebookCreate_stamps_dates (db : DB) (today u : Nat)
    (m : MemberRow) (validated : NotebookWriteData) (st : StatusRow)
    (hm : memberGet db (some u) = Except.ok m)
    (hst : validated.status = some st) :
    ∃ nb, notebookCreate db today (some u) validated = Except.ok nb ∧
      nb.dateStarted = today ∧
      nb.dateCompleted = (if st.status = "Completed" then some today else none) := by
  refine ⟨{ route := validated.route, user := m.baseUser, status := st.status,
            title := validated.title, note := validated.note, dateStarted := today,
            dateCompleted := if st.status = "Completed" then some today else none },
          ?_, rfl, rfl⟩
  simp [notebookCreate, hm, hst]

/-- C4 witness: creating an entry with initial status "Completed" on day
10 stamps both dates with 10. -/
theorem notebookCreate_stamps_dates_witness :
    ∃ nb, notebookCreate dbTwoMembers 10 (some 1) notebookDataCompleted =
        Except.ok nb ∧
      nb.dateStarted = 10 ∧
      nb.dateCompleted =
        (if statusCompleted.status = "Completed" then some 10 else none) :=
  notebookCreate_stamps_dates dbTwoMembers 10 1 memberAlice
    notebookDataCompleted statusCompleted rfl rfl

/-- Any successful WriteNotebookSerializer.create stores the member
resolved from the authenticated caller as the owner. -/
theorem notebookCreate_ok_user (db : DB) (today u : Nat) (m : MemberRow)
    (validated : NotebookWriteData) (nb : NotebookRow)
    (hm : memberGet db (some u) = Except.ok m)
    (h : notebookCreate db today (some u) validated = Except.ok nb) :
    nb.user = m.baseUser := by
  cases hst : validated.status with
  | none => simp [notebookCreate, hm, hst] at h
  | some st =>
    simp [notebookCreate, hm, hst] at h
    rw [← h]

/-- Any successful WriteNotebookSerializer.update stores the member
resolved from the authenticated caller as the owner. -/
theorem notebookUpdate_ok_user (db : DB) (today u : Nat) (m : MemberRow)
    (inst : NotebookRow) (validated : NotebookWriteData) (nb : NotebookRow)
    (hm : memberGet db (some u) = Except.ok m)
    (h : notebookUpdate db today (some u) inst validated = Except.ok nb) :
    nb.user = m.baseUser := by
  cases hst : validated.status with
  | none => simp [notebookUpdate, hm, hst] at h
  | some st =>
    simp only [notebookUpdate, hm, hst] at h
    split at h <;> [skip; split at h] <;>
      · rw [Except.ok.injEq] at h
        rw [← h]

/-- C8: "user" is not an accepted write field of WriteNotebookSerializer,
and for every body, each of two different authenticated callers obtains
an entry owned by the member resolved from their own account identity,
on create and on update alike. -/
theorem notebook_owner_is_caller (db : DB) (today u₁ u₂ : Nat)
    (m₁ m₂ : MemberRow) (inst : NotebookRow) (validated : NotebookWriteData)
    (hm₁ : memberGet db (some u₁) = Except.ok m₁)
    (hm₂ : memberGet db (some u₂) = Except.ok m₂) :
    "user" ∉ writeNotebookFields ∧
    (∀ nb, notebookCreate db today (some u₁) validated = Except.ok nb →
      nb.user = m₁.baseUser) ∧
    (∀ nb, notebookCreate db today (some u₂) validated = Except.ok nb →
      nb.user = m₂.baseUser) ∧
    (∀ nb, notebookUpdate db today (some u₁) inst validated = Except.ok nb →
      nb.user = m₁.baseUser) ∧
    (∀ nb, notebookUpdate db today (some u₂) inst validated = Except.ok nb →
      nb.user = m₂.baseUser) := by
  refine ⟨by decide, ?_, ?_, ?_, ?_⟩
  · exact fun nb h => notebookCreate_ok_user db today u₁ m₁ validated nb hm₁ h
  · exact fun nb h => notebookCreate_ok_user db today u₂ m₂ validated nb hm₂ h
  · exact fun nb h => notebookUpdate_ok_user db today u₁ m₁ inst validated nb hm₁ h
  · exact fun nb h => notebookUpdate_ok_user db today u₂ m₂ inst validated nb hm₂ h

/-- C8 witness: with two concrete members and one shared body, creates
and updates by caller 1 are owned by member 1 and those by caller 2 by
member 2. -/
theorem notebook_owner_is_caller_witness :
    "user" ∉ writeNotebookFields ∧
    (∀ nb, notebookCreate dbTwoMembers 10 (some 1) notebookDataOngoing =
      Except.ok nb → nb.user = memberAlice.baseUser) ∧
    (∀ nb, notebookCreate dbTwoMembers 10 (some 2) notebookDataOngoing =
      Except.ok nb → nb.user = memberBob.baseUser) ∧
    (∀ nb, notebookUpdate dbTwoMembers 10 (some 1) notebookOngoingEntry
      notebookDataOngoing = Except.ok nb → nb.user = memberAlice.baseUser) ∧
    (∀ nb, notebookUpdate dbTwoMembers 10 (some 2) notebookOngoingEntry
      notebookDataOngoing = Except.ok nb → nb.user = memberBob.baseUser) :=
  notebook_owner_is_caller dbTwoMembers 10 1 2 memberAlice memberBob
    notebookOngoingEntry notebookDataOngoing rfl rfl

/-- C10: a Notebook create or update whose payload omits the optional
status field raises an uncaught KeyError at validated_data["status"], so
no field validation error is returned, no default status is applied, and
the update never reaches the status and date derivation. -/
theorem notebook_missing_status_keyError (db : DB) (today u : Nat)
    (m : MemberRow) (inst : NotebookRow) (validated : NotebookWriteData)
    (hm : memberGet db (some u) = Except.ok m)
    (hst : validated.status = none) :
    notebookCreate db today (some u) validated =
      Except.error (ApiErr.keyError "status") ∧
    notebookUpdate db today (some u) inst validated =
      Except.error (ApiErr.keyError "status") := by
  constructor
  · simp [notebookCreate, hm, hst]
  · simp [notebookUpdate, hm, hst]

/-- C10 witness: omitting status in a concrete create and update both
surface the KeyError. -/
theorem notebook_missing_status_keyError_witness :
    notebookCreate dbTwoMembers 10 (some 1) notebookDataNoStatus =
      Except.error (ApiErr.keyError "status") ∧
    notebookUpdate dbTwoMembers 10 (some 1) notebookOngoingEntry
      notebookDataNoStatus = Except.error (ApiErr.keyError "status") :=
  notebook_missing_status_keyError dbTwoMembers 10 1 memberAlice
    notebookOngoingEntry notebookDataNoStatus rfl rfl

/-- C3: registering with mismatched password and confirmation, or with a
missing or empty email, raises a validation error carrying the database
exactly as it was: no account row and no member row were persisted, the
member write being sequenced strictly after the nested account write. -/
theorem registerMember_atomic_on_failure (hashPw : String → String)
    (validated : RegisterMemberData) (db : DB)
    (h : validated.baseUser.password ≠ validated.baseUser.passwordCheck ∨
         validated.baseUser.email = none ∨ validated.baseUser.email = some "") :
    ∃ key, registerMemberSave hashPw validated db =
      Except.error (ApiErr.validationError key, db) := by
  by_cases hp : validated.baseUser.password = validated.baseUser.passwordCheck
  · have he : validated.baseUser.email = none ∨
        validated.baseUser.email = some "" := by
      rcases h with h | h
      · exact absurd hp h
      · exact h
    refine ⟨"email", ?_⟩
    have hp2 : ¬(validated.baseUser.password ≠ validated.baseUser.passwordCheck) := by
      simpa using hp
    simp [registerMemberSave, registerUserSave, if_neg hp2, if_pos he]
  · refine ⟨"password", ?_⟩
    simp [registerMemberSave, registerUserSave, if_pos hp]

/-- C3 witness: a concrete mismatched registration against the empty
database errors and leaves the database empty. -/
theorem registerMember_atomic_on_failure_witness :
    ∃ key, registerMemberSave exampleHashPw registerDataMismatch dbEmpty =
      Except.error (ApiErr.validationError key, dbEmpty) :=
  registerMember_atomic_on_failure exampleHashPw registerDataMismatch dbEmpty
    (Or.inl (by decide))

/-- C6: a change-password request fails with a validation error whenever
the supplied current password does not match the stored hash or the new
password fails the strength policy, and a successful result occurs only
when both checks pass, in which case exactly the password hash is
replaced by the hash of the new password. -/
theorem changePassword_guarded (checkPw : String → String → Bool)
    (validatePw : String → Bool) (hashPw : String → String)
    (inst : UserRow) (password newPassword : String) :
    (checkPw password inst.passwordHash = false ∨ validatePw newPassword = false →
      ∃ key, changePasswordUpdate checkPw validatePw hashPw inst password newPassword =
        Except.error (ApiErr.validationError key)) ∧
    (∀ inst2, changePasswordUpdate checkPw validatePw hashPw inst password newPassword =
        Except.ok inst2 →
      checkPw password inst.passwordHash = true ∧ validatePw newPassword = true ∧
      inst2 = { inst with passwordHash := hashPw newPassword }) := by
  constructor
  · intro h
    rcases h with h | h
    · exact ⟨"password", by simp [changePasswordUpdate, h]⟩
    · by_cases hc : checkPw password inst.passwordHash
      · exact ⟨"newPassword", by simp [changePasswordUpdate, hc, h]⟩
      · exact ⟨"password", by simp [changePasswordUpdate, hc]⟩
  · intro inst2 h
    by_cases hc : checkPw password inst.passwordHash
    · by_cases hv : validatePw newPassword
      · refine ⟨hc, hv, ?_⟩
        simp [changePasswordUpdate, hc, hv] at h
        exact h.symm
      · simp [changePasswordUpdate, hc, hv] at h
    · simp [changePasswordUpdate, hc] at h

/-- C6 witness: a wrong current password against the concrete stored
hash is rejected with a validation error. -/
theorem changePassword_guarded_witness :
    ∃ key, changePasswordUpdate exampleCheckPw exampleValidatePw exampleHashPw
      exampleUser "wrong" "newsecret1" =
        Except.error (ApiErr.validationError key) :=
  (changePassword_guarded exampleCheckPw exampleValidatePw exampleHashPw
    exampleUser "wrong" "newsecret1").1 (Or.inl (by decide))

/-- C9: creating a BelongsTo row whose (member, group) pair already
exists is rejected, and any successful create preserves the invariant
that there is at most one membership row per (member, group) pair. -/
theorem belongsToCreate_unique_invariant (db : DB) (row : BelongsToRow) :
    ((∃ r ∈ db.belongsTo, r.member = row.member ∧ r.group = row.group) →
      belongsToCreate db row = Except.error (ApiErr.validationError "unique")) ∧
    (membershipUnique db.belongsTo →
      ∀ db2, belongsToCreate db row = Except.ok db2 →
        membershipUnique db2.belongsTo) := by
  constructor
  · intro h
    have ha : db.belongsTo.any
        (fun r => r.member = row.member && r.group = row.group) = true := by
      rcases h with ⟨r, hr, h1, h2⟩
      exact List.any_eq_true.mpr ⟨r, hr, by simp [h1, h2]⟩
    simp [belongsToCreate, ha]
  · intro hu db2 h
    by_cases ha : db.belongsTo.any
        (fun r => r.member = row.member && r.group = row.group) = true
    · simp [belongsToCreate, ha] at h
    · simp [belongsToCreate, ha] at h
      rw [← h]
      unfold membershipUnique
      refine List.pairwise_append.mpr ⟨hu, List.pairwise_singleton _ _, ?_⟩
      intro a haIn b hbIn hab
      have hb : b = row := by simpa using hbIn
      rw [hb] at hab
      have hpred : (fun r => r.member = row.member && r.group = row.group) a = true := by
        simp [hab.1, hab.2]
      exact ha (List.any_eq_true.mpr ⟨a, haIn, hpred⟩)

/-- C9 witness: inserting a second row for the existing (member 1,
group 2) pair is rejected. -/
theorem belongsToCreate_unique_invariant_witness :
    belongsToCreate dbOneMembership
      { member := 1, group := 2, isAdmin := false, nickname := none } =
      Except.error (ApiErr.validationError "unique") :=
  (belongsToCreate_unique_invariant dbOneMembership
      { member := 1, group := 2, isAdmin := false, nickname := none }).1
    ⟨{ member := 1, group := 2, isAdmin := true, nickname := none },
      by simp [dbOneMembership], rfl, rfl⟩

end Sparrow
